import Mathlib

/-!
Verification development for the package-requirements orchestration subsystem
of ubuntu-make (`umake/network/requirements_handler.py`).

The Python code is shallowly embedded: the apt cache, the host architecture,
the enabled foreign architectures, the probed `java`/`javac` version outputs
and the outcomes of the package-manager operations are inputs gathered in a
context structure `Ctx`; Python exceptions are modelled with `Except PyErr`;
the in-place list mutation performed by the bucket evaluators is modelled by
threading the bucket through the loop and returning its final state.

Strings are handled through their underlying character lists (`String.data`),
and Python's `str.split`, substring test and lexicographic string comparison
are re-implemented as executable functions on character lists so that every
definition evaluates by `decide` on concrete inputs.
-/

namespace Umake

/-- Substring test on character lists: `subOf p l` is true iff the character
list `p` occurs contiguously in `l`.  Embeds Python's `p in s` for strings. -/
def subOf (p : List Char) : List Char → Bool
  | [] => p.isEmpty
  | c :: cs => p.isPrefixOf (c :: cs) || subOf p cs

/-- Python substring test `pat in s`. -/
def hasSub (pat s : String) : Bool := subOf pat.data s.data

/-- Alternation detection, embedding `' | ' in pkg_name`. -/
def hasAlt (s : String) : Bool := hasSub " | " s

/-- Fuel-driven worker for `pySplit`: splits on the (non-empty) separator,
left to right, non-overlapping, like Python's `str.split(sep)`. -/
def pySplitGo (sep : List Char) : Nat → List Char → List Char → List (List Char)
  | 0, acc, _ => [acc.reverse]
  | _ + 1, acc, [] => [acc.reverse]
  | fuel + 1, acc, c :: cs =>
    if sep.isPrefixOf (c :: cs) then
      acc.reverse :: pySplitGo sep fuel [] ((c :: cs).drop sep.length)
    else
      pySplitGo sep fuel (c :: acc) cs

/-- Python `s.split(sep)` for a non-empty separator `sep`
(`str.split(sep, -1)` behaves the same: maxsplit -1 means split on every
occurrence). -/
def pySplit (s sep : String) : List String :=
  (pySplitGo sep.data (s.data.length + 1) [] s.data).map (fun l => ⟨l⟩)

/-- Python string `<=` on the underlying character lists (lexicographic by
code point, a proper prefix is smaller). -/
def pyLeList : List Char → List Char → Bool
  | [], _ => true
  | _ :: _, [] => false
  | a :: as, b :: bs =>
    if a < b then true
    else if b < a then false
    else pyLeList as bs

/-- Python string comparison `x >= y`.  This is what line 171 of
`requirements_handler.py` (`installed_version >= required_version`) performs:
a plain lexicographic comparison of the two version *strings*. -/
def pyGe (x y : String) : Bool := pyLeList y.data x.data

/-- Numeric value of a digit sequence (used by the spec-side version
comparison; components are digit-only in well-formed versions). -/
def digitsVal : Nat → List Char → Nat
  | acc, [] => acc
  | acc, c :: cs => digitsVal (acc * 10 + (c.toNat - '0'.toNat)) cs

/-- Modelled from the spec: the version comparison the spec prescribes for the
EquivalenceResolver ("comparing the installed numeric version against the
required one lexicographically-by-numeric-component").  Dotted version strings
are parsed into their numeric components. -/
def verComponents (s : String) : List Nat :=
  (pySplit s ".").map (fun t => digitsVal 0 t.data)

/-- Modelled from the spec: numeric component-wise `≥` on version strings,
so that for example installed "11.0.1" satisfies required "9". -/
def specVersionGeList : List Nat → List Nat → Bool
  | _, [] => true
  | [], _ :: _ => false
  | a :: as, b :: bs =>
    if b < a then true
    else if a < b then false
    else specVersionGeList as bs

/-- Modelled from the spec: `specVersionGe x y` holds iff version string `x`
is numerically (component by component) at least version string `y`. -/
def specVersionGe (x y : String) : Bool :=
  specVersionGeList (verComponents x) (verComponents y)

/-- Per-package view of the apt cache entry: the two flags the handler reads
(`pkg.is_installed`, `pkg.is_upgradable`). -/
structure PkgState where
  is_installed : Bool
  is_upgradable : Bool
deriving DecidableEq, Repr

/-- Python exceptions that the embedded code can raise. -/
inductive PyErr where
  /-- `TypeError: 'NoneType' object is not subscriptable` — subscripting a
  failed `re.search` result. -/
  | typeError
  /-- `UnboundLocalError` — `installed_version` read at line 171 although the
  release captured by the regex is neither "jre" nor "jdk". -/
  | unboundLocal
  /-- `ValueError` — tuple-unpacking `pkg_name.split(":", -1)` when the split
  does not yield exactly two parts. -/
  | valueError
  /-- `BaseException(msg)` — raised by the marking phase and by the commit. -/
  | baseExc (msg : String)
deriving DecidableEq, Repr

/-- The string `str(e)` of a modelled exception, as `_on_done` computes it. -/
def pyErrStr : PyErr → String
  | .typeError => "'NoneType' object is not subscriptable"
  | .unboundLocal => "local variable 'installed_version' referenced before assignment"
  | .valueError => "too many values to unpack (expected 2)"
  | .baseExc m => m

/-- The `RequirementsResult` namedtuple delivered to `installed_callback`. -/
structure RequirementsResult where
  bucket : List String
  error : Option String
deriving DecidableEq, Repr

/-- Mutating package-manager operations the worker can perform, recorded as a
trace (`dpkg --add-architecture`, `cache.update()`, `mark_install`,
`mark_upgrade`, `cache.commit`). -/
inductive PkgOp where
  | addForeignArch (arch : String)
  | cacheUpdate
  | markInstall (name : String)
  | markUpgrade (name : String)
  | commit
deriving DecidableEq, Repr

/-- Environment of one `RequirementsHandler` evaluation: the apt cache
contents, the values returned by the `umake.tools` helpers
(`get_current_arch`, `get_foreign_archs`), the outputs of the probed java
binaries, and the outcomes of the package-manager operations.  The function
fields make the external world explicit while keeping everything executable
on concrete contexts. -/
structure Ctx where
  /-- The apt cache: package name to state; absent means `name not in cache`. -/
  cache : List (String × PkgState)
  /-- Value of `get_current_arch()` (from `umake/tools.py`, not under src/). -/
  currentArch : String
  /-- Value of `get_foreign_archs()` (from `umake/tools.py`, not under src/). -/
  foreignArchs : List String
  /-- Output of `java -version` (`none` = FileNotFoundError: no binary). -/
  jreOutput : Option String
  /-- Output of `javac -version` (`none` = FileNotFoundError: no binary). -/
  jdkOutput : Option String
  /-- Modelled from the spec: `add_foreign_arch` (in `umake/tools.py`, not
  under src/) enables an architecture that is not yet enabled and returns
  whether it newly enabled one.  `archEnableNew a = true` means the call
  `add_foreign_arch a` enables `a` and returns True. -/
  archEnableNew : String → Bool
  /-- Whether `mark_install` / `mark_upgrade` raises for a given package, and
  with which message. -/
  markRaises : String → Option String
  /-- Outcome of `cache.commit(...)`: `none` = success, `some m` = it raises
  with message `m`. -/
  commitResult : Option String
  /-- Text written to the exchange file by the forked child during the commit
  (apt/dpkg output). -/
  applyOutput : String

/-- Cache lookup (`self.cache[name]` / `name in self.cache`). -/
def lookupPkg (ctx : Ctx) (name : String) : Option PkgState :=
  ctx.cache.lookup name

/-! ### The openjdk regular expressions (`check_java_equiv`) -/

/-- Python `\w` restricted to ASCII: letter, digit or underscore (all inputs
considered in this development are ASCII). -/
def isWordChar (c : Char) : Bool := c.isAlphanum || c == '_'

/-- Attempt to match `openjdk-(\d+)-(j\w\w)` at the head of the list,
returning the two captured groups. -/
def ojdkAt (l : List Char) : Option (String × String) :=
  if "openjdk-".data.isPrefixOf l then
    let r := l.drop 8
    let ds := r.takeWhile Char.isDigit
    if ds.isEmpty then none
    else
      match r.drop ds.length with
      | '-' :: 'j' :: c₁ :: c₂ :: _ =>
        if isWordChar c₁ && isWordChar c₂ then some (⟨ds⟩, ⟨['j', c₁, c₂]⟩)
        else none
      | _ => none
  else none

/-- Leftmost match of `openjdk-(\d+)-(j\w\w)`, as `re.search` finds it. -/
def ojdkSearchList : List Char → Option (String × String)
  | [] => none
  | c :: cs =>
    match ojdkAt (c :: cs) with
    | some r => some r
    | none => ojdkSearchList cs

/-- `re.search(r"openjdk-(\d+)-(j\w\w)", pkg_name)` with its two captures. -/
def openjdkSearch (s : String) : Option (String × String) :=
  ojdkSearchList s.data

/-- Modelled from the spec/claim words: the pattern "openjdk-<digits>-j<two
letters>" — identical to `openjdkSearch` except that the two characters after
`j` must be letters, which is how the claim paraphrases the code's `j\w\w`. -/
def claimOjdkAt (l : List Char) : Option (String × String) :=
  if "openjdk-".data.isPrefixOf l then
    let r := l.drop 8
    let ds := r.takeWhile Char.isDigit
    if ds.isEmpty then none
    else
      match r.drop ds.length with
      | '-' :: 'j' :: c₁ :: c₂ :: _ =>
        if c₁.isAlpha && c₂.isAlpha then some (⟨ds⟩, ⟨['j', c₁, c₂]⟩)
        else none
      | _ => none
  else none

/-- Modelled from the spec/claim words: leftmost match of
"openjdk-<digits>-j<two letters>". -/
def claimOpenjdkSearchList : List Char → Option (String × String)
  | [] => none
  | c :: cs =>
    match claimOjdkAt (c :: cs) with
    | some r => some r
    | none => claimOpenjdkSearchList cs

/-- Modelled from the spec/claim words: search for "openjdk-<digits>-j<two
letters>" in a specifier. -/
def claimOpenjdkSearch (s : String) : Option (String × String) :=
  claimOpenjdkSearchList s.data

/-- True while scanning characters of the version capture class `[\d\.]`. -/
def isVerChar (c : Char) : Bool := c.isDigit || c == '.'

/-- Helper for the jre version regex: after the capture, `.*\"` requires a
closing quote before the end of the line (Python `.` does not match `\n`). -/
def quoteBeforeNewline : List Char → Bool
  | [] => false
  | c :: cs =>
    if c == '"' then true
    else if c == '\n' then false
    else quoteBeforeNewline cs

/-- Attempt to match `version \"([\d\.]+).*\"` at the head of the list,
returning the captured version string. -/
def jreVerAt (l : List Char) : Option String :=
  if "version \"".data.isPrefixOf l then
    let r := l.drop 9
    let run := r.takeWhile isVerChar
    if run.isEmpty then none
    else if quoteBeforeNewline (r.drop run.length) then some ⟨run⟩
    else none
  else none

/-- Leftmost match of `re.search(r"version \"([\d\.]+).*\"", out)`. -/
def jreVerSearch : List Char → Option String
  | [] => none
  | c :: cs =>
    match jreVerAt (c :: cs) with
    | some r => some r
    | none => jreVerSearch cs

/-- Leftmost match of `re.search(r"([\d\.]+).*", out)`: the first maximal run
of digits and dots. -/
def jdkVerSearch : List Char → Option String
  | [] => none
  | c :: cs =>
    if isVerChar c then some ⟨(c :: cs).takeWhile isVerChar⟩
    else jdkVerSearch cs

/-- Embeds `RequirementsHandler.check_java_equiv` (lines 147-174).  The probed
outputs are taken from the context (the Python instance memoizes them; with a
fixed environment the memoization does not change the returned value).
Subscripting a failed search raises `TypeError`; a captured release other
than "jre"/"jdk" leaves `installed_version` unassigned and line 171 raises
`UnboundLocalError`; a missing binary (`FileNotFoundError`) yields `False`. -/
def check_java_equiv (ctx : Ctx) (pkg_name : String) : Except PyErr Bool :=
  match openjdkSearch pkg_name with
  | none => .error .typeError
  | some (required_version, required_release) =>
    if required_release = "jre" then
      match ctx.jreOutput with
      | none => .ok false
      | some out =>
        match jreVerSearch out.data with
        | none => .error .typeError
        | some installed_version => .ok (pyGe installed_version required_version)
    else if required_release = "jdk" then
      match ctx.jdkOutput with
      | none => .ok false
      | some out =>
        match jdkVerSearch out.data with
        | none => .error .typeError
        | some installed_version => .ok (pyGe installed_version required_version)
    else .error .unboundLocal

/-! ### The bucket evaluators (`is_bucket_installed` / `is_bucket_available` /
`is_bucket_uptodate`)

Each Python function iterates over the (mutated) bucket by index; the
in-place `bucket.remove(pkg_name); bucket.append(package)` preserves the
list's length, so the iteration visits exactly the indices `0 .. len-1` of
the evolving list.  The loops below take the index `k` explicitly, thread the
bucket, and use the initial length as fuel. -/

/-- Arch normalization shared by `is_bucket_installed` (lines 72-75),
`is_bucket_uptodate` (lines 133-136) and the marking phase (lines 224-227):
if `":"` occurs, `(name, arch) = pkg_name.split(":", -1)` (raising
`ValueError` unless exactly two parts) and the arch qualifier is stripped
when it names the current architecture. -/
def stripArchE (ctx : Ctx) (pkg_name : String) : Except PyErr String :=
  if pkg_name.data.contains ':' then
    match pySplit pkg_name ":" with
    | [name, arch] => .ok (if arch = ctx.currentArch then name else pkg_name)
    | _ => .error .valueError
  else .ok pkg_name

/-- Total companion of `stripArchE`, used to state hypotheses: the name under
which a specifier is looked up in the cache (identity when the split does not
yield two parts — in that situation the code raises instead). -/
def lookupName (ctx : Ctx) (pkg_name : String) : String :=
  if pkg_name.data.contains ':' then
    match pySplit pkg_name ":" with
    | [name, arch] => if arch = ctx.currentArch then name else pkg_name
    | _ => pkg_name
  else pkg_name

/-- Loop body of `is_bucket_installed` after alternation resolution
(lines 70-81), applied to the current flag value: the arch qualifier is
stripped, and when the package is not installed the flag is *assigned* —
`False` in general, the `check_java_equiv` result for openjdk names. -/
def instBody (ctx : Ctx) (flag : Bool) (pkg_name : String) : Except PyErr Bool :=
  match stripArchE ctx pkg_name with
  | .error e => .error e
  | .ok q =>
    match lookupPkg ctx q with
    | some st =>
      if st.is_installed then .ok flag
      else if hasSub "openjdk" q then check_java_equiv ctx q
      else .ok false
    | none =>
      if hasSub "openjdk" q then check_java_equiv ctx q
      else .ok false

/-- Evaluation of `is_bucket_installed([p])` for an alternation-free `p`:
the recursive singleton call at line 65 reduces to the loop body with the
flag initially `True` (see `is_bucket_installed_singleton`). -/
def instSingle (ctx : Ctx) (p : String) : Except PyErr Bool :=
  instBody ctx true p

/-- Loop body of `is_bucket_available` after alternation resolution
(lines 95-114).  No unconditional arch stripping: the `":"` handling lives
inside the `not in cache` branch, and its two `continue` statements skip the
openjdk/else part. -/
def availBody (ctx : Ctx) (flag : Bool) (pkg_name : String) : Except PyErr Bool :=
  match lookupPkg ctx pkg_name with
  | some _ => .ok flag
  | none =>
    if pkg_name.data.contains ':' then
      match pySplit pkg_name ":" with
      | [name, arch] =>
        if arch = ctx.currentArch && (lookupPkg ctx name).isSome then .ok flag
        else if !(ctx.foreignArchs.contains arch) then .ok flag
        else if hasSub "openjdk" pkg_name then
          match check_java_equiv ctx pkg_name with
          | .error e => .error e
          | .ok b => .ok (if b then flag else false)
        else .ok false
      | _ => .error .valueError
    else if hasSub "openjdk" pkg_name then
      match check_java_equiv ctx pkg_name with
      | .error e => .error e
      | .ok b => .ok (if b then flag else false)
    else .ok false

/-- Evaluation of `is_bucket_available([p])` for an alternation-free `p`
(the recursive singleton calls at lines 90 and 126). -/
def availSingle (ctx : Ctx) (p : String) : Except PyErr Bool :=
  availBody ctx true p

/-- Loop body of `is_bucket_uptodate` after alternation resolution
(lines 131-144): arch stripping, then the flag is set to `False` when the
package is missing, not installed, or upgradable — but line 143 afterwards
*resets the whole flag to `True`* whenever the (stripped) name contains
"openjdk" and `check_java_equiv` succeeds. -/
def uptoBody (ctx : Ctx) (flag : Bool) (pkg_name : String) : Except PyErr Bool :=
  match stripArchE ctx pkg_name with
  | .error e => .error e
  | .ok q =>
    let flag₁ :=
      match lookupPkg ctx q with
      | none => false
      | some st =>
        if !st.is_installed then false
        else if st.is_upgradable then false
        else flag
    if hasSub "openjdk" q then
      match check_java_equiv ctx q with
      | .error e => .error e
      | .ok b => .ok (if b then true else flag₁)
    else .ok flag₁

/-- Alternation resolution attempt (lines 63-69 / 88-94 / 124-130): try each
alternative of `pkg_name.split(' | ')` with the given singleton test; on the
first success, remove the alternation from the bucket (first occurrence, as
`list.remove`), append the chosen alternative, and continue with it. -/
def resolveGo (test : String → Except PyErr Bool) (bucket : List String)
    (pkg_name : String) : List String → Except PyErr (List String × String)
  | [] => .ok (bucket, pkg_name)
  | p :: rest =>
    match test p with
    | .error e => .error e
    | .ok b =>
      if b then .ok (bucket.erase pkg_name ++ [p], p)
      else resolveGo test bucket pkg_name rest

/-- Alternation resolution: a no-op unless `' | '` occurs in the specifier. -/
def resolveAlt (test : String → Except PyErr Bool) (bucket : List String)
    (pkg_name : String) : Except PyErr (List String × String) :=
  if hasAlt pkg_name then resolveGo test bucket pkg_name (pySplit pkg_name " | ")
  else .ok (bucket, pkg_name)

/-- Iteration of `is_bucket_installed` from index `k`, with `fuel` bounding
the number of remaining iterations (the bucket's length is invariant, so the
initial length suffices). -/
def instLoop (ctx : Ctx) : Nat → Nat → Bool → List String →
    Except PyErr Bool × List String
  | 0, _, flag, bucket => (.ok flag, bucket)
  | fuel + 1, k, flag, bucket =>
    match bucket[k]? with
    | none => (.ok flag, bucket)
    | some pkg =>
      match resolveAlt (instSingle ctx) bucket pkg with
      | .error e => (.error e, bucket)
      | .ok (bucket', pkg') =>
        match instBody ctx flag pkg' with
        | .error e => (.error e, bucket')
        | .ok flag' => instLoop ctx fuel (k + 1) flag' bucket'

/-- Embeds `RequirementsHandler.is_bucket_installed` (lines 56-82), returning
the boolean (or the raised exception) together with the final state of the
mutated bucket. -/
def is_bucket_installed (ctx : Ctx) (bucket : List String) :
    Except PyErr Bool × List String :=
  instLoop ctx bucket.length 0 true bucket

/-- Iteration of `is_bucket_available` from index `k`. -/
def availLoop (ctx : Ctx) : Nat → Nat → Bool → List String →
    Except PyErr Bool × List String
  | 0, _, flag, bucket => (.ok flag, bucket)
  | fuel + 1, k, flag, bucket =>
    match bucket[k]? with
    | none => (.ok flag, bucket)
    | some pkg =>
      match resolveAlt (availSingle ctx) bucket pkg with
      | .error e => (.error e, bucket)
      | .ok (bucket', pkg') =>
        match availBody ctx flag pkg' with
        | .error e => (.error e, bucket')
        | .ok flag' => availLoop ctx fuel (k + 1) flag' bucket'

/-- Embeds `RequirementsHandler.is_bucket_available` (lines 84-115). -/
def is_bucket_available (ctx : Ctx) (bucket : List String) :
    Except PyErr Bool × List String :=
  availLoop ctx bucket.length 0 true bucket

/-- Iteration of `is_bucket_uptodate` from index `k`.  Its alternation
resolution tests alternatives with `is_bucket_available` (line 126). -/
def uptoLoop (ctx : Ctx) : Nat → Nat → Bool → List String →
    Except PyErr Bool × List String
  | 0, _, flag, bucket => (.ok flag, bucket)
  | fuel + 1, k, flag, bucket =>
    match bucket[k]? with
    | none => (.ok flag, bucket)
    | some pkg =>
      match resolveAlt (availSingle ctx) bucket pkg with
      | .error e => (.error e, bucket)
      | .ok (bucket', pkg') =>
        match uptoBody ctx flag pkg' with
        | .error e => (.error e, bucket')
        | .ok flag' => uptoLoop ctx fuel (k + 1) flag' bucket'

/-- Embeds `RequirementsHandler.is_bucket_uptodate` (lines 117-145). -/
def is_bucket_uptodate (ctx : Ctx) (bucket : List String) :
    Except PyErr Bool × List String :=
  uptoLoop ctx bucket.length 0 true bucket

/-! ### The worker (`_really_install_bucket`), the dispatcher (`_on_done`)
and `install_bucket` -/

/-- Foreign-architecture phase of the worker (lines 208-218): for each
arch-qualified specifier, `need = need or add_foreign_arch(arch)` — note that
Python's `or` short-circuits, so once `need` is true `add_foreign_arch` is no
longer called.  Returns the final flag and the trace of mutating operations
performed. -/
def foreignArchPhase (ctx : Ctx) : Bool → List String → Bool × List PkgOp
  | need, [] => (need, [])
  | need, p :: rest =>
    if p.data.contains ':' && !need then
      if ctx.archEnableNew (((pySplit p ":").getLast?).getD "") then
        ((foreignArchPhase ctx true rest).1,
          PkgOp.addForeignArch (((pySplit p ":").getLast?).getD "") ::
            (foreignArchPhase ctx true rest).2)
      else foreignArchPhase ctx need rest
    else foreignArchPhase ctx need rest

/-- Marking phase of the worker (lines 220-238): arch-strip each specifier,
look it up (`self.cache[pkg_name]` raises `KeyError` when absent), mark it
for upgrade when installed-and-upgradable, else for install; any exception is
re-raised as `BaseException("Can't mark for install <name>: <msg>")`.
Returns the marks performed before a failure, and the failure if any. -/
def markPhase (ctx : Ctx) : List String → List PkgOp × Option PyErr
  | [] => ([], none)
  | p :: rest =>
    match stripArchE ctx p with
    | .error e => ([], some e)
    | .ok q =>
      match lookupPkg ctx q with
      | none =>
        ([], some (.baseExc ("Can't mark for install " ++ q ++ ": '" ++ q ++ "'")))
      | some st =>
        match ctx.markRaises q with
        | some m => ([], some (.baseExc ("Can't mark for install " ++ q ++ ": " ++ m)))
        | none =>
          ((if st.is_installed && st.is_upgradable then PkgOp.markUpgrade q
            else PkgOp.markInstall q) :: (markPhase ctx rest).1,
            (markPhase ctx rest).2)

/-- Decidable equality for `Except`, so that concrete runs of the embedded
functions can be checked with `decide`. -/
instance {ε α : Type _} [DecidableEq ε] [DecidableEq α] :
    DecidableEq (Except ε α) := fun x y =>
  match x, y with
  | .ok a, .ok b => decidable_of_iff (a = b) (by simp)
  | .error a, .error b => decidable_of_iff (a = b) (by simp)
  | .ok _, .error _ => .isFalse (by simp)
  | .error _, .ok _ => .isFalse (by simp)

/-- Result of one worker task: its outcome (the returned `True` or the raised
exception), the bucket after the worker's own evaluation, the trace of
mutating package-manager operations, and the exchange-file content at the
time `_on_done` reads it (the file is created empty at line 202 and written
only by the forked child during the commit). -/
structure TaskRun where
  outcome : Except PyErr Bool
  bucketAfter : List String
  ops : List PkgOp
  exchange : String
deriving DecidableEq, Repr

/-- Operations of the foreign-architecture phase, followed by the cache
update performed when at least one architecture was newly enabled
(lines 208-218). -/
def workerPreOps (ctx : Ctx) (bucket : List String) : List PkgOp :=
  (foreignArchPhase ctx false bucket).2 ++
    (if (foreignArchPhase ctx false bucket).1 then [PkgOp.cacheUpdate] else [])

/-- Commit step of the worker (lines 240-251): the trace records the marks,
then the commit; the exchange file now holds the apply-phase output; a
commit failure becomes the raised exception. -/
def workerCommit (ctx : Ctx) (b' : List String) : TaskRun :=
  match ctx.commitResult with
  | none =>
    ⟨.ok true, b', workerPreOps ctx b' ++ (markPhase ctx b').1 ++ [PkgOp.commit],
      ctx.applyOutput⟩
  | some m =>
    ⟨.error (.baseExc m), b',
      workerPreOps ctx b' ++ (markPhase ctx b').1 ++ [PkgOp.commit],
      ctx.applyOutput⟩

/-- Mark-then-commit part of the worker (lines 220-251): a marking failure
aborts before the commit with the exchange file still empty. -/
def workerMark (ctx : Ctx) (b' : List String) : TaskRun :=
  match (markPhase ctx b').2 with
  | some e => ⟨.error e, b', workerPreOps ctx b' ++ (markPhase ctx b').1, ""⟩
  | none => workerCommit ctx b'

/-- Dispatch on the worker's own `is_bucket_uptodate` re-evaluation
(line 205): short-circuit to success when already satisfied. -/
def workerDispatch (ctx : Ctx) : Except PyErr Bool × List String → TaskRun
  | (.error e, b') => ⟨.error e, b', [], ""⟩
  | (.ok true, b') => ⟨.ok true, b', [], ""⟩
  | (.ok false, b') => workerMark ctx b'

/-- Embeds `RequirementsHandler._really_install_bucket` (lines 196-251):
re-evaluate `is_bucket_uptodate` and short-circuit on success; otherwise
enable missing foreign architectures (updating the cache if any was added),
mark every specifier, and commit. -/
def really_install_bucket (ctx : Ctx) (bucket : List String) : TaskRun :=
  workerDispatch ctx (is_bucket_uptodate ctx bucket)

/-- Embeds `RequirementsHandler._on_done` (lines 253-267): build the
`RequirementsResult`; on failure the error string is `str(exception)`,
enriched with the exchange-file content when that is non-empty; the
`installed_callback` receives exactly this result. -/
def on_done (bucket : List String) (outcome : Except PyErr Bool)
    (exchange : String) : RequirementsResult :=
  match outcome with
  | .ok _ => ⟨bucket, none⟩
  | .error e =>
    let base := pyErrStr e
    ⟨bucket, some (if exchange = "" then base
      else base ++ "\nSubprocess output: " ++ exchange)⟩

/-- Embeds `RequirementsHandler.install_bucket` (lines 176-194) together with
the queued task it submits: the synchronous `is_bucket_uptodate` call decides
the returned boolean (`pkg_to_install`); if it raises, the exception
propagates to the caller and nothing is submitted.  Otherwise the single
worker runs the task and `_on_done` invokes `installed_callback` once with
the built result.  Returns the boolean, the list of callback invocations,
and the trace of mutating operations. -/
def install_bucket (ctx : Ctx) (bucket : List String) :
    Except PyErr (Bool × List RequirementsResult × List PkgOp) :=
  match is_bucket_uptodate ctx bucket with
  | (.error e, _) => .error e
  | (.ok upto, b₁) =>
    let t := really_install_bucket ctx b₁
    .ok (!upto, [on_done t.bucketAfter t.outcome t.exchange], t.ops)

/-- Number of `installed_callback` invocations produced by one
`install_bucket` call (zero when `install_bucket` itself raises). -/
def callbackCount (ctx : Ctx) (bucket : List String) : Nat :=
  match install_bucket ctx bucket with
  | .error _ => 0
  | .ok (_, rs, _) => rs.length

/-! ### `_force_reload_apt_cache` (lines 269-275) -/

/-- Embeds `RequirementsHandler._force_reload_apt_cache` as a fuel-indexed
run: `att k` tells whether the k-th `self.cache.open()` attempt succeeds
(`false` = it raises `SystemError`).  Each failed attempt sleeps exactly one
second before the recursive retry, so the returned value — the number of
failed attempts before the first success — is also the total seconds slept.
`none` means the recursion has not terminated within `fuel` attempts. -/
def force_reload_apt_cache (att : Nat → Bool) : Nat → Option Nat
  | 0 => none
  | fuel + 1 =>
    if att 0 then some 0
    else (force_reload_apt_cache (fun k => att (k + 1)) fuel).map (· + 1)

/-! ### Per-specifier status predicates used in the claim statements -/

/-- Installed-and-current status of the cache entry a specifier is looked up
under ("present in the cache, installed, and not upgradable"). -/
def goodUpto (ctx : Ctx) (p : String) : Bool :=
  match lookupPkg ctx (lookupName ctx p) with
  | some st => st.is_installed && !st.is_upgradable
  | none => false

/-- A specifier whose `":"` handling cannot raise: either no colon, or the
split yields exactly the two parts the tuple unpacking expects. -/
def colonArity (p : String) : Bool :=
  !p.data.contains ':' || (pySplit p ":").length == 2

/-- A plain specifier: no alternation, well-formed arch qualifier, and no
"openjdk" in the name it is looked up under (so the java-equivalence override
of line 143 cannot fire). -/
def cleanSpec (ctx : Ctx) (p : String) : Bool :=
  !hasAlt p && colonArity p && !hasSub "openjdk" (lookupName ctx p)

/-! ### Helper lemmas -/

lemma resolveAlt_noalt (test : String → Except PyErr Bool)
    (bucket : List String) (p : String) (h : hasAlt p = false) :
    resolveAlt test bucket p = .ok (bucket, p) := by
  simp [resolveAlt, h]

lemma stripArchE_eq_lookupName (ctx : Ctx) (p : String)
    (h : colonArity p = true) :
    stripArchE ctx p = .ok (lookupName ctx p) := by
  unfold colonArity at h
  unfold stripArchE lookupName
  cases hc : p.data.contains ':' with
  | false => simp [hc]
  | true =>
    simp only [hc, Bool.not_true, Bool.false_or, beq_iff_eq] at h
    cases hs : pySplit p ":" with
    | nil => rw [hs] at h; simp at h
    | cons a t =>
      cases t with
      | nil => rw [hs] at h; simp at h
      | cons b t2 =>
        cases t2 with
        | nil => simp [hs]
        | cons c t3 => rw [hs] at h; simp at h

lemma uptoBody_clean (ctx : Ctx) (flag : Bool) (p : String)
    (h₁ : colonArity p = true)
    (h₂ : hasSub "openjdk" (lookupName ctx p) = false) :
    uptoBody ctx flag p = .ok (flag && goodUpto ctx p) := by
  unfold uptoBody goodUpto
  rw [stripArchE_eq_lookupName ctx p h₁]
  cases hl : lookupPkg ctx (lookupName ctx p) with
  | none => simp [hl, h₂]
  | some st =>
    cases hi : st.is_installed <;> cases hu : st.is_upgradable <;>
      simp [hl, h₂, hi, hu]

lemma drop_cons_of_getElem? {α : Type _} {l : List α} {k : Nat} {x : α}
    (h : l[k]? = some x) : l.drop k = x :: l.drop (k + 1) := by
  obtain ⟨hlt, he⟩ := List.getElem?_eq_some_iff.mp h
  rw [List.drop_eq_getElem_cons hlt, he]

lemma mem_of_getElem?' {α : Type _} {l : List α} {k : Nat} {x : α}
    (h : l[k]? = some x) : x ∈ l := by
  obtain ⟨hlt, he⟩ := List.getElem?_eq_some_iff.mp h
  exact he ▸ List.getElem_mem hlt

/-- Master lemma for `is_bucket_uptodate` on buckets of plain specifiers: the
loop never mutates the bucket and computes the conjunction of the
per-specifier installed-and-current statuses. -/
lemma uptoLoop_clean (ctx : Ctx) (bucket : List String)
    (H : ∀ p ∈ bucket, cleanSpec ctx p = true) :
    ∀ fuel k flag, bucket.length ≤ k + fuel →
      uptoLoop ctx fuel k flag bucket =
        (.ok (flag && (bucket.drop k).all (goodUpto ctx)), bucket) := by
  intro fuel
  induction fuel with
  | zero =>
    intro k flag hk
    have hd : bucket.drop k = [] := List.drop_eq_nil_of_le (by omega)
    simp [uptoLoop, hd]
  | succ fuel ih =>
    intro k flag hk
    cases hg : bucket[k]? with
    | none =>
      have hlen : bucket.length ≤ k := List.getElem?_eq_none_iff.mp hg
      have hd : bucket.drop k = [] := List.drop_eq_nil_of_le hlen
      simp [uptoLoop, hg, hd]
    | some pkg =>
      have hmem : pkg ∈ bucket := mem_of_getElem?' hg
      have hc := H pkg hmem
      unfold cleanSpec at hc
      simp only [Bool.and_eq_true, Bool.not_eq_true'] at hc
      obtain ⟨⟨hna, hca⟩, hoj⟩ := hc
      have hres := resolveAlt_noalt (availSingle ctx) bucket pkg hna
      have hbody := uptoBody_clean ctx flag pkg hca hoj
      have hdrop := drop_cons_of_getElem? hg
      simp only [uptoLoop, hg, hres, hbody]
      rw [ih (k + 1) (flag && goodUpto ctx pkg) (by omega)]
      rw [hdrop, List.all_cons, ← Bool.and_assoc]

/-- On an alternation-free singleton, `is_bucket_installed` is the loop body
with the flag initially `True` and never mutates the bucket — this is exactly
what the recursive call `self.is_bucket_installed([package])` at line 65
evaluates. -/
lemma is_bucket_installed_singleton (ctx : Ctx) (p : String)
    (h : hasAlt p = false) :
    is_bucket_installed ctx [p] = (instSingle ctx p, [p]) := by
  cases hb : instBody ctx true p with
  | error e =>
    simp [is_bucket_installed, instLoop, resolveAlt_noalt _ _ _ h, instSingle, hb]
  | ok f =>
    simp [is_bucket_installed, instLoop, resolveAlt_noalt _ _ _ h, instSingle, hb]

/-- Singleton evaluation of `is_bucket_available` (the recursive calls at
lines 90 and 126). -/
lemma is_bucket_available_singleton (ctx : Ctx) (p : String)
    (h : hasAlt p = false) :
    is_bucket_available ctx [p] = (availSingle ctx p, [p]) := by
  cases hb : availBody ctx true p with
  | error e =>
    simp [is_bucket_available, availLoop, resolveAlt_noalt _ _ _ h, availSingle, hb]
  | ok f =>
    simp [is_bucket_available, availLoop, resolveAlt_noalt _ _ _ h, availSingle, hb]

/-- Singleton evaluation of `is_bucket_uptodate`. -/
lemma is_bucket_uptodate_singleton (ctx : Ctx) (p : String)
    (h : hasAlt p = false) :
    is_bucket_uptodate ctx [p] = (uptoBody ctx true p, [p]) := by
  cases hb : uptoBody ctx true p with
  | error e =>
    simp [is_bucket_uptodate, uptoLoop, resolveAlt_noalt _ _ _ h, hb]
  | ok f =>
    simp [is_bucket_uptodate, uptoLoop, resolveAlt_noalt _ _ _ h, hb]

/-! ### Claim C2 -/

/-- C2 (amended): for every bucket of plain specifiers — no alternation, a
well-formed arch qualifier, and no "openjdk" in the looked-up name (an
openjdk specifier makes line 143 call `check_java_equiv`, which can raise or
override the result) — in which every specifier's looked-up package is
present in the cache, installed, and not upgradable: `is_bucket_uptodate`
returns `True` leaving the bucket unchanged, `install_bucket` returns
`False`, and the worker task short-circuits successfully with no mutating
package-manager operation (no foreign-arch enabling, no cache update, no
mark, no commit) and a success result delivered to the callback. -/
theorem claim2_uptodate_shortcircuit (ctx : Ctx) (bucket : List String)
    (H : ∀ p ∈ bucket, cleanSpec ctx p = true ∧ goodUpto ctx p = true) :
    is_bucket_uptodate ctx bucket = (.ok true, bucket) ∧
    install_bucket ctx bucket = .ok (false, [⟨bucket, none⟩], []) := by
  have hall : bucket.all (goodUpto ctx) = true :=
    List.all_eq_true.mpr (fun p hp => (H p hp).2)
  have hu : is_bucket_uptodate ctx bucket = (.ok true, bucket) := by
    unfold is_bucket_uptodate
    rw [uptoLoop_clean ctx bucket (fun p hp => (H p hp).1) bucket.length 0 true
      (by omega)]
    simp [hall]
  refine ⟨hu, ?_⟩
  simp [install_bucket, really_install_bucket, workerDispatch, hu, on_done]

/-- Claim C2 witness: a concrete context for the amended theorem. -/
def ctxC2 : Ctx :=
  { cache := [("gcc-avr", ⟨true, false⟩), ("avr-libc", ⟨true, false⟩)],
    currentArch := "amd64", foreignArchs := [], jreOutput := none,
    jdkOutput := none, archEnableNew := fun _ => false,
    markRaises := fun _ => none, commitResult := none, applyOutput := "" }

/-- C2 witness: both conclusions at a concrete satisfied bucket. -/
theorem claim2_witness :
    is_bucket_uptodate ctxC2 ["gcc-avr", "avr-libc"] =
      (.ok true, ["gcc-avr", "avr-libc"]) ∧
    install_bucket ctxC2 ["gcc-avr", "avr-libc"] =
      .ok (false, [⟨["gcc-avr", "avr-libc"], none⟩], []) :=
  claim2_uptodate_shortcircuit ctxC2 ["gcc-avr", "avr-libc"] (by decide)

/-- Claim C2 counterexample context: the cache holds an installed, current
package whose name contains "openjdk" but does not match the openjdk regex. -/
def ctxC2bad : Ctx :=
  { cache := [("myopenjdk", ⟨true, false⟩)], currentArch := "amd64",
    foreignArchs := [], jreOutput := none, jdkOutput := none,
    archEnableNew := fun _ => false, markRaises := fun _ => none,
    commitResult := none, applyOutput := "" }

/-- C2 counterexample: a bucket whose only specifier names a package that is
present in the cache, installed and not upgradable, yet `is_bucket_uptodate`
raises `TypeError` (line 143 calls `check_java_equiv` on every name
containing "openjdk") instead of returning `True`, and `install_bucket`
propagates the exception instead of returning `False`. -/
theorem claim2_counterexample :
    lookupPkg ctxC2bad "myopenjdk" = some ⟨true, false⟩ ∧
    is_bucket_uptodate ctxC2bad ["myopenjdk"] =
      (.error .typeError, ["myopenjdk"]) ∧
    install_bucket ctxC2bad ["myopenjdk"] = .error .typeError := by decide

/-! ### Claim C3 -/

/-- C3 (amended): for every bucket of plain specifiers with no "openjdk" in
any looked-up name, if any specifier's looked-up package is missing from the
cache, present but not installed, or installed but upgradable, then
`is_bucket_uptodate` returns `False`.  (The restriction is forced: line 143
resets the whole-bucket flag to `True` whenever a later specifier contains
"openjdk" and its java-equivalence probe succeeds, overriding earlier
failures — see the counterexample.) -/
theorem claim3_single_stale_fails (ctx : Ctx) (bucket : List String)
    (H : ∀ p ∈ bucket, cleanSpec ctx p = true)
    (Hbad : ∃ p ∈ bucket, goodUpto ctx p = false) :
    is_bucket_uptodate ctx bucket = (.ok false, bucket) := by
  unfold is_bucket_uptodate
  rw [uptoLoop_clean ctx bucket H bucket.length 0 true (by omega)]
  obtain ⟨p, hp, hbad⟩ := Hbad
  have : bucket.all (goodUpto ctx) = false :=
    List.all_eq_false.mpr ⟨p, hp, by simp [hbad]⟩
  simp [this]

/-- Claim C3 witness context: one missing package. -/
def ctxC3 : Ctx :=
  { cache := [("make", ⟨true, false⟩)], currentArch := "amd64",
    foreignArchs := [], jreOutput := none, jdkOutput := none,
    archEnableNew := fun _ => false, markRaises := fun _ => none,
    commitResult := none, applyOutput := "" }

/-- C3 witness: a bucket with one satisfied and one missing specifier is not
up to date. -/
theorem claim3_witness :
    is_bucket_uptodate ctxC3 ["make", "nope"] = (.ok false, ["make", "nope"]) :=
  claim3_single_stale_fails ctxC3 ["make", "nope"] (by decide)
    ⟨"nope", by decide, by decide⟩

/-- Claim C3 counterexample context: the bucket's first specifier is absent
from the cache, but a later openjdk specifier's java-equivalence probe
succeeds (`"9.0.1" >= "8"` under the code's string comparison). -/
def ctxC3bad : Ctx :=
  { cache := [], currentArch := "amd64", foreignArchs := [],
    jreOutput := some "openjdk version \"9.0.1\" 2018-01-01", jdkOutput := none,
    archEnableNew := fun _ => false, markRaises := fun _ => none,
    commitResult := none, applyOutput := "" }

/-- C3 counterexample: specifier "nope" is not present in the cache, so the
claim demands `False`, yet `is_bucket_uptodate` returns `True` because the
later "openjdk-8-jre" specifier resets the whole-bucket flag at line 143. -/
theorem claim3_counterexample :
    lookupPkg ctxC3bad "nope" = none ∧
    is_bucket_uptodate ctxC3bad ["nope", "openjdk-8-jre"] =
      (.ok true, ["nope", "openjdk-8-jre"]) := by decide

/-! ### Claim C1 -/

/-- C1 (amended): provided the synchronous `is_bucket_uptodate` evaluation
inside `install_bucket` (line 189) does not raise, the `installed_callback`
is invoked exactly once with a `RequirementsResult` — never zero times and
never more than once — regardless of whether the task succeeds,
short-circuits because the bucket is already up to date, or fails during
marking or commit.  (When that synchronous evaluation raises — e.g. on a
malformed openjdk specifier — the exception propagates to the caller, no
task is submitted, and the callback is never invoked: see the
counterexample.) -/
theorem claim1_callback_exactly_once (ctx : Ctx) (bucket b₁ : List String)
    (u : Bool) (h : is_bucket_uptodate ctx bucket = (.ok u, b₁)) :
    callbackCount ctx bucket = 1 := by
  simp [callbackCount, install_bucket, h]

/-- Claim C1 witness contexts: a commit failure and a mark failure, both of
which still deliver exactly one callback. -/
def ctxC1 : Ctx :=
  { cache := [("pkg", ⟨false, false⟩)], currentArch := "amd64",
    foreignArchs := [], jreOutput := none, jdkOutput := none,
    archEnableNew := fun _ => false, markRaises := fun _ => none,
    commitResult := some "E: Unable to fetch some archives", applyOutput := "" }

/-- C1 witness: exactly one callback on a concrete failing installation. -/
theorem claim1_witness : callbackCount ctxC1 ["pkg"] = 1 :=
  claim1_callback_exactly_once ctxC1 ["pkg"] ["pkg"] false (by decide)

/-- Claim C1 counterexample context. -/
def ctxC1bad : Ctx :=
  { cache := [], currentArch := "amd64", foreignArchs := [],
    jreOutput := none, jdkOutput := none, archEnableNew := fun _ => false,
    markRaises := fun _ => none, commitResult := none, applyOutput := "" }

/-- C1 counterexample: calling `install_bucket` on the bucket
`["openjdk-11"]` raises `TypeError` synchronously (the regex in
`check_java_equiv` does not match, line 150 subscripts `None`) before any
task is submitted, so the `installed_callback` is invoked zero times — not
exactly once as the claim states for every call. -/
theorem claim1_counterexample :
    install_bucket ctxC1bad ["openjdk-11"] = .error .typeError ∧
    callbackCount ctxC1bad ["openjdk-11"] = 0 := by decide

/-! ### Claim C4 -/

/-- C4: for a singleton bucket holding the alternation `s = "a | b"` where
only alternative `b` satisfies the evaluation's own singleton presence test,
one evaluation (`is_bucket_installed` or `is_bucket_available`) returns
`True` and mutates the bucket so that it equals `["b"]`; a second evaluation
of the resolved bucket `["b"]` returns the same answer and performs no
further mutation — the resolved form contains no alternation and is never
re-resolved. -/
theorem claim4_alternation_idempotent (ctx : Ctx) (s a b : String)
    (hs : hasAlt s = true) (hsplit : pySplit s " | " = [a, b])
    (ha : hasAlt a = false) (hb : hasAlt b = false)
    (hia : is_bucket_installed ctx [a] = (.ok false, [a]))
    (hib : is_bucket_installed ctx [b] = (.ok true, [b]))
    (hva : is_bucket_available ctx [a] = (.ok false, [a]))
    (hvb : is_bucket_available ctx [b] = (.ok true, [b])) :
    is_bucket_installed ctx [s] = (.ok true, [b]) ∧
    is_bucket_available ctx [s] = (.ok true, [b]) ∧
    is_bucket_installed ctx [b] = (.ok true, [b]) ∧
    is_bucket_available ctx [b] = (.ok true, [b]) := by
  have hia' : instSingle ctx a = .ok false := by
    have h₀ := is_bucket_installed_singleton ctx a ha
    rw [hia] at h₀
    simp only [Prod.mk.injEq] at h₀
    exact h₀.1.symm
  have hib' : instSingle ctx b = .ok true := by
    have h₀ := is_bucket_installed_singleton ctx b hb
    rw [hib] at h₀
    simp only [Prod.mk.injEq] at h₀
    exact h₀.1.symm
  have hva' : availSingle ctx a = .ok false := by
    have h₀ := is_bucket_available_singleton ctx a ha
    rw [hva] at h₀
    simp only [Prod.mk.injEq] at h₀
    exact h₀.1.symm
  have hvb' : availSingle ctx b = .ok true := by
    have h₀ := is_bucket_available_singleton ctx b hb
    rw [hvb] at h₀
    simp only [Prod.mk.injEq] at h₀
    exact h₀.1.symm
  have hib'' : instBody ctx true b = .ok true := hib'
  have hvb'' : availBody ctx true b = .ok true := hvb'
  refine ⟨?_, ?_, hib, hvb⟩
  · simp [is_bucket_installed, instLoop, resolveAlt, hs, hsplit, resolveGo,
      hia', hib', hib'', List.erase_cons_head]
  · simp [is_bucket_available, availLoop, resolveAlt, hs, hsplit, resolveGo,
      hva', hvb', hvb'', List.erase_cons_head]

/-- Claim C4 witness context: only package "b" is installed. -/
def ctxC4 : Ctx :=
  { cache := [("b", ⟨true, false⟩)], currentArch := "amd64",
    foreignArchs := [], jreOutput := none, jdkOutput := none,
    archEnableNew := fun _ => false, markRaises := fun _ => none,
    commitResult := none, applyOutput := "" }

/-- C4 witness: the bucket `["a | b"]` resolves to `["b"]` in one
evaluation, and evaluating `["b"]` again is a no-op. -/
theorem claim4_witness :
    is_bucket_installed ctxC4 ["a | b"] = (.ok true, ["b"]) ∧
    is_bucket_available ctxC4 ["a | b"] = (.ok true, ["b"]) ∧
    is_bucket_installed ctxC4 ["b"] = (.ok true, ["b"]) ∧
    is_bucket_available ctxC4 ["b"] = (.ok true, ["b"]) :=
  claim4_alternation_idempotent ctxC4 "a | b" "a" "b" (by decide) (by decide)
    (by decide) (by decide) (by decide) (by decide) (by decide) (by decide)

/-! ### Claim C5 -/

/-- C5 (amended): (a) in `is_bucket_installed` (and likewise in the arch
normalization shared with `is_bucket_uptodate` and the marking phase), a
specifier `"name:arch"` whose arch equals the host's current architecture is
looked up as bare `"name"`, so `"x:<current-arch>"` and `"x"` evaluate to the
same boolean; in `is_bucket_available` this bare-name lookup happens only
inside the absent-from-cache fallback, and when the bare name is also absent
the two forms evaluate differently (see the counterexample).  (b) For a
specifier `"name:arch"` whose arch differs from the current architecture and
is not among the enabled foreign architectures, and which is absent from the
cache, `is_bucket_available` does not report the bucket unavailable on that
specifier alone — it treats it as possibly available later. -/
theorem claim5_arch_normalization :
    (∀ (ctx : Ctx) (s x : String),
      s.data.contains ':' = true →
      pySplit s ":" = [x, ctx.currentArch] →
      hasAlt s = false → hasAlt x = false → x.data.contains ':' = false →
      (is_bucket_installed ctx [s]).1 = (is_bucket_installed ctx [x]).1) ∧
    (∀ (ctx : Ctx) (s n a : String),
      s.data.contains ':' = true →
      pySplit s ":" = [n, a] →
      hasAlt s = false →
      lookupPkg ctx s = none →
      a ≠ ctx.currentArch →
      ctx.foreignArchs.contains a = false →
      is_bucket_available ctx [s] = (.ok true, [s])) := by
  constructor
  · intro ctx s x hc hsplit hsa hxa hxc
    rw [is_bucket_installed_singleton ctx s hsa,
      is_bucket_installed_singleton ctx x hxa]
    have hcm : ':' ∈ s.data := by simpa using hc
    have hxm : ¬(':' ∈ x.data) := by simpa using hxc
    have : instSingle ctx s = instSingle ctx x := by
      unfold instSingle instBody stripArchE
      simp [hcm, hxm, hsplit]
    simp [this]
  · intro ctx s n a hc hsplit hsa hl hne hf
    rw [is_bucket_available_singleton ctx s hsa]
    have hcm : ':' ∈ s.data := by simpa using hc
    have hfm : ¬(a ∈ ctx.foreignArchs) := by simpa using hf
    have : availSingle ctx s = .ok true := by
      unfold availSingle availBody
      simp [hl, hcm, hsplit, hne, hfm]
    simp [this]

/-- Claim C5 counterexample context: empty cache, current arch amd64. -/
def ctxC5bad : Ctx :=
  { cache := [], currentArch := "amd64", foreignArchs := [],
    jreOutput := none, jdkOutput := none, archEnableNew := fun _ => false,
    markRaises := fun _ => none, commitResult := none, applyOutput := "" }

/-- C5 counterexample: with `"x"` absent from the cache,
`is_bucket_available` reports `["x:amd64"]` (current arch qualifier)
available but `["x"]` unavailable — the two forms do not evaluate
identically, because `is_bucket_available` never strips the qualifier; it
only consults the bare name inside its fallback branch. -/
theorem claim5_counterexample :
    (is_bucket_available ctxC5bad ["x:amd64"]).1 = .ok true ∧
    (is_bucket_available ctxC5bad ["x"]).1 = .ok false := by decide

/-- Claim C5 witness context. -/
def ctxC5 : Ctx :=
  { cache := [("x", ⟨true, false⟩)], currentArch := "amd64",
    foreignArchs := [], jreOutput := none, jdkOutput := none,
    archEnableNew := fun _ => false, markRaises := fun _ => none,
    commitResult := none, applyOutput := "" }

/-- C5 witness: both parts of the amended claim at concrete inputs —
`"x:amd64"` and `"x"` agree under `is_bucket_installed`, and the foreign
specifier `"y:arm64"` (arm64 not enabled, package absent) is reported
available. -/
theorem claim5_witness :
    (is_bucket_installed ctxC5 ["x:amd64"]).1 =
      (is_bucket_installed ctxC5 ["x"]).1 ∧
    is_bucket_available ctxC5 ["y:arm64"] = (.ok true, ["y:arm64"]) :=
  ⟨claim5_arch_normalization.1 ctxC5 "x:amd64" "x" (by decide) (by decide)
      (by decide) (by decide) (by decide),
    claim5_arch_normalization.2 ctxC5 "y:arm64" "y" "arm64" (by decide)
      (by decide) (by decide) (by decide) (by decide) (by decide)⟩

/-! ### Claim C6 -/

/-- Claim C6 context: `java -version` reports installed version 11.0.1. -/
def ctxC6 : Ctx :=
  { cache := [], currentArch := "amd64", foreignArchs := [],
    jreOutput := some "openjdk version \"11.0.1\" 2018-10-16",
    jdkOutput := none, archEnableNew := fun _ => false,
    markRaises := fun _ => none, commitResult := none, applyOutput := "" }

/-- C6: the claim (and the spec) require the probed installed version to be
compared *numerically component by component* with the required major
version, so installed 11.0.1 satisfies required 9.  The code instead
evaluates `installed_version >= required_version` on the version *strings*
(Python lexicographic comparison), under which `"11.0.1" >= "9"` is false:
on the requirement "openjdk-9-jre" with installed version 11.0.1 probed,
`check_java_equiv` returns `False` although the spec's numeric comparison
says the requirement is satisfied.  This evaluates the code at the failing
input and exhibits the divergence. -/
theorem claim6_version_comparison_bug :
    check_java_equiv ctxC6 "openjdk-9-jre" = .ok false ∧
    openjdkSearch "openjdk-9-jre" = some ("9", "jre") ∧
    jreVerSearch ("openjdk version \"11.0.1\" 2018-10-16").data =
      some "11.0.1" ∧
    pyGe "11.0.1" "9" = false ∧
    specVersionGe "11.0.1" "9" = true := by decide

/-! ### Claim C7 -/

lemma commit_not_mem_foreignArchPhase (ctx : Ctx) :
    ∀ (need : Bool) (l : List String),
      PkgOp.commit ∉ (foreignArchPhase ctx need l).2 := by
  intro need l
  induction l generalizing need with
  | nil => simp [foreignArchPhase]
  | cons p rest ih =>
    unfold foreignArchPhase
    by_cases h₁ : (p.data.contains ':' && !need) = true
    · rw [if_pos h₁]
      by_cases h₂ : ctx.archEnableNew (((pySplit p ":").getLast?).getD "") = true
      · rw [if_pos h₂]
        simp only [List.mem_cons, not_or]
        exact ⟨by simp, ih true⟩
      · rw [if_neg h₂]
        exact ih need
    · rw [if_neg h₁]
      exact ih need

lemma commit_not_mem_markPhase (ctx : Ctx) :
    ∀ l : List String, PkgOp.commit ∉ (markPhase ctx l).1 := by
  intro l
  induction l with
  | nil => simp [markPhase]
  | cons p rest ih =>
    cases hs : stripArchE ctx p with
    | error e => simp [markPhase, hs]
    | ok q =>
      cases hl : lookupPkg ctx q with
      | none => simp [markPhase, hs, hl]
      | some st =>
        cases hm : ctx.markRaises q with
        | some m => simp [markPhase, hs, hl, hm]
        | none =>
          by_cases hi : (st.is_installed && st.is_upgradable) = true
          · simp [markPhase, hs, hl, hm, hi]
            exact ih
          · simp [markPhase, hs, hl, hm, hi]
            exact ih

lemma commit_not_mem_workerPreOps (ctx : Ctx) (l : List String) :
    PkgOp.commit ∉ workerPreOps ctx l := by
  unfold workerPreOps
  intro hmem
  rcases List.mem_append.mp hmem with h | h
  · exact commit_not_mem_foreignArchPhase ctx false l h
  · by_cases hn : (foreignArchPhase ctx false l).1 = true
    · rw [if_pos hn] at h
      simp at h
    · rw [if_neg hn] at h
      simp at h

/-- When the commit was reached (a commit operation is in the trace) and the
commit raises with message `m`, the worker's outcome is exactly that raised
exception and the exchange file holds the apply-phase output. -/
lemma really_install_commit_fail (ctx : Ctx) (b : List String) (m : String)
    (hm : ctx.commitResult = some m)
    (hc : PkgOp.commit ∈ (really_install_bucket ctx b).ops) :
    (really_install_bucket ctx b).outcome = .error (.baseExc m) ∧
    (really_install_bucket ctx b).exchange = ctx.applyOutput := by
  unfold really_install_bucket at hc ⊢
  rcases hw : is_bucket_uptodate ctx b with ⟨wres, b₂⟩
  rw [hw] at hc
  cases wres with
  | error e => simp [workerDispatch] at hc
  | ok wv =>
    cases wv with
    | true => simp [workerDispatch] at hc
    | false =>
      simp only [workerDispatch] at hc ⊢
      unfold workerMark at hc ⊢
      cases hmk : (markPhase ctx b₂).2 with
      | some e =>
        rw [hmk] at hc
        simp only [] at hc
        rcases List.mem_append.mp hc with h' | h'
        · exact absurd h' (commit_not_mem_workerPreOps ctx b₂)
        · exact absurd h' (commit_not_mem_markPhase ctx b₂)
      | none =>
        simp [workerCommit, hm]

/-- C7: when the package-manager commit raises with message `m`, the result
delivered to the completion callback is a single `RequirementsResult` whose
error string is non-null, contains the raised message, and — when the
exchange file is non-empty — also contains the text written to the exchange
file during the apply phase; no exception propagates to the caller
(`install_bucket` returns normally with exactly that one callback
invocation). -/
theorem claim7_commit_failure_enriched (ctx : Ctx) (bucket : List String)
    (ret : Bool) (rs : List RequirementsResult) (ops : List PkgOp) (m : String)
    (h : install_bucket ctx bucket = .ok (ret, rs, ops))
    (hm : ctx.commitResult = some m)
    (hc : PkgOp.commit ∈ ops) :
    ∃ b s, rs = [⟨b, some s⟩] ∧
      List.IsInfix m.data s.data ∧
      (ctx.applyOutput ≠ "" → List.IsInfix ctx.applyOutput.data s.data) := by
  unfold install_bucket at h
  rcases hu : is_bucket_uptodate ctx bucket with ⟨res, b₁⟩
  rw [hu] at h
  cases res with
  | error e => simp at h
  | ok u =>
    simp only [Except.ok.injEq, Prod.mk.injEq] at h
    obtain ⟨-, hrs, hops⟩ := h
    subst hrs
    subst hops
    obtain ⟨ho, he⟩ := really_install_commit_fail ctx b₁ m hm hc
    refine ⟨(really_install_bucket ctx b₁).bucketAfter,
      (if ctx.applyOutput = "" then m
        else m ++ "\nSubprocess output: " ++ ctx.applyOutput), ?_, ?_, ?_⟩
    · rw [ho, he]
      simp [on_done, pyErrStr]
    · by_cases hemp : ctx.applyOutput = ""
      · simp [hemp, List.infix_rfl]
      · simp only [hemp, ite_false]
        exact ⟨[], ("\nSubprocess output: " ++ ctx.applyOutput).data,
          by simp [String.data_append]⟩
    · intro hemp
      simp only [hemp, ite_false]
      exact ⟨(m ++ "\nSubprocess output: ").data, [],
        by simp [String.data_append]⟩

/-- Claim C7 witness context: marking succeeds, the commit raises, the
exchange file holds dpkg output. -/
def ctxC7 : Ctx :=
  { cache := [("pkg", ⟨false, false⟩)], currentArch := "amd64",
    foreignArchs := [], jreOutput := none, jdkOutput := none,
    archEnableNew := fun _ => false, markRaises := fun _ => none,
    commitResult := some "E: Unable to fetch some archives",
    applyOutput := "dpkg: error processing package pkg" }

/-- C7 witness: the enriched error string at a concrete commit failure. -/
theorem claim7_witness :
    ∃ b s,
      [(⟨["pkg"], some ("E: Unable to fetch some archives" ++
        "\nSubprocess output: " ++ "dpkg: error processing package pkg")⟩ :
        RequirementsResult)] = [(⟨b, some s⟩ : RequirementsResult)] ∧
      List.IsInfix "E: Unable to fetch some archives".data s.data ∧
      (ctxC7.applyOutput ≠ "" →
        List.IsInfix ctxC7.applyOutput.data s.data) :=
  claim7_commit_failure_enriched ctxC7 ["pkg"] true
    [⟨["pkg"], some ("E: Unable to fetch some archives" ++
      "\nSubprocess output: " ++ "dpkg: error processing package pkg")⟩]
    [PkgOp.markInstall "pkg", PkgOp.commit]
    "E: Unable to fetch some archives" (by decide) rfl (by decide)

/-! ### Claim C8 -/

lemma reload_some_att (n : Nat) :
    ∀ (fuel : Nat) (att : Nat → Bool),
      force_reload_apt_cache att fuel = some n → att n = true := by
  induction n with
  | zero =>
    intro fuel att h
    cases fuel with
    | zero => simp [force_reload_apt_cache] at h
    | succ f =>
      unfold force_reload_apt_cache at h
      by_cases h0 : att 0 = true
      · exact h0
      · rw [if_neg h0] at h
        rcases Option.map_eq_some'.mp h with ⟨n', _, hn'⟩
        omega
  | succ n ih =>
    intro fuel att h
    cases fuel with
    | zero => simp [force_reload_apt_cache] at h
    | succ f =>
      unfold force_reload_apt_cache at h
      by_cases h0 : att 0 = true
      · rw [if_pos h0] at h
        simp at h
      · rw [if_neg h0] at h
        rcases Option.map_eq_some'.mp h with ⟨n', hrec, hn'⟩
        have hn : n' = n := by omega
        subst hn
        exact ih f (fun k => att (k + 1)) hrec

lemma reload_first_success :
    ∀ (n : Nat) (att : Nat → Bool), (∀ m < n, att m = false) → att n = true →
      force_reload_apt_cache att (n + 1) = some n := by
  intro n
  induction n with
  | zero =>
    intro att _ hn
    simp [force_reload_apt_cache, hn]
  | succ n ih =>
    intro att hlt hn
    have h0 : att 0 = false := hlt 0 (by omega)
    unfold force_reload_apt_cache
    rw [if_neg (by simp [h0])]
    rw [ih (fun k => att (k + 1)) (fun m hm => hlt (m + 1) (by omega)) hn]
    rfl

lemma reload_none_of_all_fail :
    ∀ (fuel : Nat) (att : Nat → Bool), (∀ m < fuel, att m = false) →
      force_reload_apt_cache att fuel = none := by
  intro fuel
  induction fuel with
  | zero => intro att _; rfl
  | succ f ih =>
    intro att hlt
    unfold force_reload_apt_cache
    rw [if_neg (by simp [hlt 0 (by omega)])]
    rw [ih (fun k => att (k + 1)) (fun m hm => hlt (m + 1) (by omega))]
    rfl

/-- C8: the cache-reload retry loop.  Attempt outcomes are the input `att`
(`false` = `cache.open()` raises `SystemError`).  (i) The recursion
terminates (the fuel-indexed run returns a value for some fuel) exactly when
some attempt succeeds.  (ii) When the first success is attempt `n`, the run
needs fuel `n + 1`, performs exactly `n` sleeps of the fixed one-second delay
(the returned count), and — for every bound `fuel ≤ n` — has not finished
within that bound, i.e. the retry is unbounded: no fixed number of attempts
suffices for all inputs. -/
theorem claim8_reload_retries_until_success (att : Nat → Bool) :
    ((∃ fuel n, force_reload_apt_cache att fuel = some n) ↔
      ∃ k, att k = true) ∧
    (∀ n, (∀ m < n, att m = false) → att n = true →
      force_reload_apt_cache att (n + 1) = some n ∧
      ∀ fuel ≤ n, force_reload_apt_cache att fuel = none) := by
  constructor
  · constructor
    · rintro ⟨fuel, n, h⟩
      exact ⟨n, reload_some_att n fuel att h⟩
    · rintro ⟨k, hk⟩
      have H : ∃ k, att k = true := ⟨k, hk⟩
      refine ⟨Nat.find H + 1, Nat.find H, ?_⟩
      exact reload_first_success (Nat.find H) att
        (fun m hm => by simpa using Nat.find_min H hm) (Nat.find_spec H)
  · intro n hlt hn
    refine ⟨reload_first_success n att hlt hn, fun fuel hf => ?_⟩
    exact reload_none_of_all_fail fuel att (fun m hm => hlt m (by omega))

/-- C8 witness: with the first two attempts failing and the third
succeeding, the loop sleeps twice (two seconds total) and terminates, while
fuel 2 — one attempt short — has not yet terminated. -/
theorem claim8_witness :
    force_reload_apt_cache (fun k => k == 2) 3 = some 2 ∧
    force_reload_apt_cache (fun k => k == 2) 2 = none :=
  ⟨((claim8_reload_retries_until_success (fun k => k == 2)).2 2 (by decide)
      (by decide)).1,
    ((claim8_reload_retries_until_success (fun k => k == 2)).2 2 (by decide)
      (by decide)).2 2 (by omega)⟩

/-! ### Claim C9 -/

/-- C9 (amended): `check_java_equiv` is partial on its stated domain — for
any specifier containing the substring "openjdk" on which the code's regex
`openjdk-(\d+)-(j\w\w)` finds no match ("j" must be followed by two *word
characters*, not necessarily two letters as the claim words it — see the
counterexample; e.g. "openjdk-11" or "libopenjdk" match neither), the regex
search is `None`, subscripting it raises `TypeError`, and the three bucket
evaluators raise on such a specifier (here: alternation-free, colon-free and
absent from the cache, so that each evaluator reaches its openjdk branch)
instead of reporting it unsatisfied. -/
theorem claim9_check_java_equiv_partial (ctx : Ctx) (s : String)
    (hoj : hasSub "openjdk" s = true)
    (hre : openjdkSearch s = none)
    (hna : hasAlt s = false)
    (hnc : s.data.contains ':' = false)
    (hnl : lookupPkg ctx s = none) :
    check_java_equiv ctx s = .error .typeError ∧
    is_bucket_installed ctx [s] = (.error .typeError, [s]) ∧
    is_bucket_available ctx [s] = (.error .typeError, [s]) ∧
    is_bucket_uptodate ctx [s] = (.error .typeError, [s]) := by
  have hcj : check_java_equiv ctx s = .error .typeError := by
    unfold check_java_equiv
    rw [hre]
  have hncm : ¬(':' ∈ s.data) := by simpa using hnc
  refine ⟨hcj, ?_, ?_, ?_⟩
  · rw [is_bucket_installed_singleton ctx s hna]
    have : instSingle ctx s = .error .typeError := by
      unfold instSingle instBody stripArchE
      simp [hncm, hnl, hoj, hcj]
    rw [this]
  · rw [is_bucket_available_singleton ctx s hna]
    have : availSingle ctx s = .error .typeError := by
      unfold availSingle availBody
      simp [hncm, hnl, hoj, hcj]
    rw [this]
  · rw [is_bucket_uptodate_singleton ctx s hna]
    have : uptoBody ctx true s = .error .typeError := by
      unfold uptoBody stripArchE
      simp [hncm, hnl, hoj, hcj]
    rw [this]

/-- Claim C9 witness context. -/
def ctxC9 : Ctx :=
  { cache := [], currentArch := "amd64", foreignArchs := [],
    jreOutput := none, jdkOutput := none, archEnableNew := fun _ => false,
    markRaises := fun _ => none, commitResult := none, applyOutput := "" }

/-- C9 witness: on the malformed specifier "openjdk-11" all three evaluators
raise `TypeError`. -/
theorem claim9_witness :
    check_java_equiv ctxC9 "openjdk-11" = .error .typeError ∧
    is_bucket_installed ctxC9 ["openjdk-11"] =
      (.error .typeError, ["openjdk-11"]) ∧
    is_bucket_available ctxC9 ["openjdk-11"] =
      (.error .typeError, ["openjdk-11"]) ∧
    is_bucket_uptodate ctxC9 ["openjdk-11"] =
      (.error .typeError, ["openjdk-11"]) :=
  claim9_check_java_equiv_partial ctxC9 "openjdk-11" (by decide) (by decide)
    (by decide) (by decide) (by decide)

/-- C9 counterexample: the specifier "openjdk-1-j00" contains "openjdk" and
does not match the claim's paraphrased pattern "openjdk-<digits>-j<two
letters>" (the pattern modelled from the claim's words finds no match), yet
the code's regex `openjdk-(\d+)-(j\w\w)` *does* match it (digits are word
characters), so the regex match is not `None` there — the claim's statement
that the match is `None` for every such specifier is false as worded. -/
theorem claim9_counterexample :
    hasSub "openjdk" "openjdk-1-j00" = true ∧
    claimOpenjdkSearch "openjdk-1-j00" = none ∧
    openjdkSearch "openjdk-1-j00" = some ("1", "j00") := by decide

/-! ### Claim C10 -/

lemma resolveGo_shape (test : String → Except PyErr Bool)
    (bucket : List String) (pkg : String) :
    ∀ (parts : List String) (b' : List String) (c : String),
      resolveGo test bucket pkg parts = .ok (b', c) →
      (b' = bucket ∧ c = pkg) ∨ b' = bucket.erase pkg ++ [c] := by
  intro parts
  induction parts with
  | nil =>
    intro b' c h
    simp only [resolveGo, Except.ok.injEq, Prod.mk.injEq] at h
    exact Or.inl ⟨h.1.symm, h.2.symm⟩
  | cons p rest ih =>
    intro b' c h
    unfold resolveGo at h
    cases ht : test p with
    | error e => rw [ht] at h; simp at h
    | ok b =>
      rw [ht] at h
      cases b with
      | true =>
        simp only [if_true, Except.ok.injEq, Prod.mk.injEq] at h
        right
        rw [← h.1, ← h.2]
      | false =>
        simp only [Bool.false_eq_true, if_false] at h
        exact ih b' c h

lemma erase_eq_take_drop {l : List String} {i : Nat} {x : String}
    (hg : l[i]? = some x) (hf : x ∉ l.take i) :
    l.erase x = l.take i ++ l.drop (i + 1) := by
  induction l generalizing i with
  | nil => simp at hg
  | cons y t ih =>
    cases i with
    | zero =>
      simp only [List.getElem?_cons_zero, Option.some.injEq] at hg
      subst hg
      simp [List.erase_cons_head]
    | succ i =>
      simp only [List.getElem?_cons_succ] at hg
      simp only [List.take_succ_cons, List.mem_cons, not_or] at hf
      obtain ⟨hxy, hft⟩ := hf
      have hbeq : ¬(y == x) = true := fun h => hxy (beq_iff_eq.mp h).symm
      rw [List.erase_cons_tail hbeq, ih hg hft]
      simp

lemma cons_eq_append_singleton {α : Type _} :
    ∀ (u : List α) (a c : α), a :: u = u ++ [c] → a = c := by
  intro u
  induction u with
  | nil => intro a c h; simpa using h
  | cons x xs ih =>
    intro a c h
    simp only [List.cons_append, List.cons.injEq] at h
    exact h.1.trans (ih x c h.2)

/-- C10: when an alternation specifier at position `i` of a bucket with more
than one element is resolved (the alternation's first occurrence is at `i`),
the chosen alternative is removed from the alternation's original position
and appended at the end: the resulting bucket is
`take i ++ drop (i+1) ++ [chosen]`.  Consequently, whenever the alternation
was not the last element, the bucket's element order after resolution
differs from the submission order (the resulting list is never equal to the
submitted one). -/
theorem claim10_resolution_moves_to_end
    (test : String → Except PyErr Bool) (bucket bucket' : List String)
    (i : Nat) (alt chosen : String)
    (hget : bucket[i]? = some alt)
    (hfirst : alt ∉ bucket.take i)
    (hres : resolveAlt test bucket alt = .ok (bucket', chosen))
    (hne : chosen ≠ alt)
    (hlast : i + 1 < bucket.length) :
    bucket' = bucket.take i ++ bucket.drop (i + 1) ++ [chosen] ∧
    bucket' ≠ bucket := by
  have h1 : bucket' = bucket.erase alt ++ [chosen] := by
    unfold resolveAlt at hres
    by_cases ha : hasAlt alt = true
    · rw [if_pos ha] at hres
      rcases resolveGo_shape test bucket alt _ _ _ hres with ⟨-, h₂⟩ | h₁
      · exact absurd h₂ hne
      · exact h₁
    · rw [if_neg ha] at hres
      simp only [Except.ok.injEq, Prod.mk.injEq] at hres
      exact absurd hres.2.symm hne
  have hmain : bucket' = bucket.take i ++ bucket.drop (i + 1) ++ [chosen] := by
    rw [h1, erase_eq_take_drop hget hfirst]
  refine ⟨hmain, ?_⟩
  intro heq
  have htk : (bucket.take i).length = i := by
    rw [List.length_take]
    omega
  have hd : bucket.drop i = alt :: bucket.drop (i + 1) :=
    drop_cons_of_getElem? hget
  have hdd : bucket.drop i = bucket.drop (i + 1) ++ [chosen] := by
    calc bucket.drop i
        = (bucket.take i ++ (bucket.drop (i + 1) ++ [chosen])).drop i := by
          rw [← List.append_assoc, ← hmain, heq]
      _ = bucket.drop (i + 1) ++ [chosen] := List.drop_left' htk
  rw [hd] at hdd
  exact hne (cons_eq_append_singleton _ _ _ hdd).symm

/-- Claim C10 witness context: only package "b" is installed. -/
def ctxC10 : Ctx :=
  { cache := [("b", ⟨true, false⟩)], currentArch := "amd64",
    foreignArchs := [], jreOutput := none, jdkOutput := none,
    archEnableNew := fun _ => false, markRaises := fun _ => none,
    commitResult := none, applyOutput := "" }

/-- C10 witness: in the bucket `["a | b", "c"]` the alternation at position 0
resolves (with the real installed-singleton test) to `["c", "b"]` — the
chosen alternative moved to the end — which differs from the submitted
order. -/
theorem claim10_witness :
    resolveAlt (instSingle ctxC10) ["a | b", "c"] "a | b" =
      .ok (["c", "b"], "b") ∧
    (["c", "b"] : List String) =
      ["a | b", "c"].take 0 ++ ["a | b", "c"].drop 1 ++ ["b"] ∧
    (["c", "b"] : List String) ≠ ["a | b", "c"] :=
  ⟨by decide,
    (claim10_resolution_moves_to_end (instSingle ctxC10) ["a | b", "c"]
      ["c", "b"] 0 "a | b" "b" (by decide) (by decide) (by decide) (by decide)
      (by decide)).1,
    (claim10_resolution_moves_to_end (instSingle ctxC10) ["a | b", "c"]
      ["c", "b"] 0 "a | b" "b" (by decide) (by decide) (by decide) (by decide)
      (by decide)).2⟩

end Umake
